import Mathlib

/-!
Verification development for the Legal Email Assistant repository
(`email_assistant.py`).

The program is shallowly embedded:
* the pydantic models `Parties`, `AgreementReference`, `EmailAnalysisSchema`
  become Lean structures with `String` fields;
* Python dictionaries that flow through the pipeline (the mock analysis
  result, the `analysis` argument of `draft_reply`) become `AnalysisDict`,
  a structure whose fields are `Option`-valued: `none` models an absent key,
  and a `none` result of a dict access models a raised `KeyError`;
* pydantic model validation of a candidate dict becomes `validate`,
  returning `Except ValidationError EmailAnalysisSchema`;
* `LegalEmailAssistant.__init__` becomes `LegalEmailAssistant.init`, with
  the `OPENAI_API_KEY` environment variable and the `LANGCHAIN_AVAILABLE`
  module-availability flag passed explicitly as the ambient runtime state;
  Python truthiness of the optional credential is `pyTruthy`;
* the external model-invocation capability (the langchain/OpenAI chain) is
  an explicit function argument; live-mode `analyze_email` hands it the
  request built from the fixed system prompt and the raw email text and
  propagates its failure unchanged.
-/

namespace EmailAssistant

/-- Pydantic model `Parties` (src lines 16-18): two required string fields. -/
structure Parties where
  client : String
  counterparty : String
deriving DecidableEq

/-- Pydantic model `AgreementReference` (src lines 20-22). -/
structure AgreementReference where
  type : String
  date : String
deriving DecidableEq

/-- Pydantic model `EmailAnalysisSchema` (src lines 24-31).  Every field is
required; `urgency_level` is declared as a plain `str` whose Field
description, not its type, mentions low/medium/high. -/
structure EmailAnalysisSchema where
  intent : String
  primary_topic : String
  parties : Parties
  agreement_reference : AgreementReference
  questions : List String
  requested_due_date : String
  urgency_level : String
deriving DecidableEq

/-- A Python dict candidate for `Parties`: keys may be absent. -/
structure PartiesDict where
  client : Option String
  counterparty : Option String
deriving DecidableEq

/-- A Python dict candidate for `AgreementReference`: keys may be absent. -/
structure AgreementReferenceDict where
  type : Option String
  date : Option String
deriving DecidableEq

/-- A Python dict candidate for `EmailAnalysisSchema`: keys may be absent. -/
structure AnalysisDict where
  intent : Option String
  primary_topic : Option String
  parties : Option PartiesDict
  agreement_reference : Option AgreementReferenceDict
  questions : Option (List String)
  requested_due_date : Option String
  urgency_level : Option String
deriving DecidableEq

/-- Pydantic validation failure for a candidate record. -/
inductive ValidationError where
  | missing : String → ValidationError
deriving DecidableEq

/-- Pydantic validation of a candidate against `EmailAnalysisSchema`
(src lines 24-31): every declared field is required and string-typed; no
other runtime constraint is declared (Field descriptions are documentation
for the model, not validators). -/
def validate (c : AnalysisDict) : Except ValidationError EmailAnalysisSchema :=
  match c.intent with
  | none => .error (.missing "intent")
  | some intent =>
  match c.primary_topic with
  | none => .error (.missing "primary_topic")
  | some topic =>
  match c.parties with
  | none => .error (.missing "parties")
  | some p =>
  match p.client with
  | none => .error (.missing "parties.client")
  | some pclient =>
  match p.counterparty with
  | none => .error (.missing "parties.counterparty")
  | some pcounterparty =>
  match c.agreement_reference with
  | none => .error (.missing "agreement_reference")
  | some ar =>
  match ar.type with
  | none => .error (.missing "agreement_reference.type")
  | some artype =>
  match ar.date with
  | none => .error (.missing "agreement_reference.date")
  | some ardate =>
  match c.questions with
  | none => .error (.missing "questions")
  | some qs =>
  match c.requested_due_date with
  | none => .error (.missing "requested_due_date")
  | some due =>
  match c.urgency_level with
  | none => .error (.missing "urgency_level")
  | some urg =>
  .ok { intent := intent
      , primary_topic := topic
      , parties := { client := pclient, counterparty := pcounterparty }
      , agreement_reference := { type := artype, date := ardate }
      , questions := qs
      , requested_due_date := due
      , urgency_level := urg }

/-- The dict produced by `result.dict()` on a validated record. -/
def toDict (r : EmailAnalysisSchema) : AnalysisDict :=
  { intent := some r.intent
  , primary_topic := some r.primary_topic
  , parties := some { client := some r.parties.client
                    , counterparty := some r.parties.counterparty }
  , agreement_reference := some { type := some r.agreement_reference.type
                                , date := some r.agreement_reference.date }
  , questions := some r.questions
  , requested_due_date := some r.requested_due_date
  , urgency_level := some r.urgency_level }

/-- All declared fields of the candidate dict are present (the schema's
required-field contract, including both nested objects). -/
def fieldsPresent (c : AnalysisDict) : Bool :=
  c.intent.isSome && c.primary_topic.isSome &&
  (match c.parties with
   | none => false
   | some p => p.client.isSome && p.counterparty.isSome) &&
  (match c.agreement_reference with
   | none => false
   | some ar => ar.type.isSome && ar.date.isSome) &&
  c.questions.isSome && c.requested_due_date.isSome && c.urgency_level.isSome

/-- Python truthiness of an optional string: `None` and `""` are falsy. -/
def pyTruthy : Option String → Bool
  | none => false
  | some s => s != ""

/-- Python `a or b` on optional strings. -/
def pyOr (a b : Option String) : Option String :=
  if pyTruthy a then a else b

/-- State of a constructed `LegalEmailAssistant` (src lines 33-43). -/
structure LegalEmailAssistant where
  api_key : Option String
  model_name : String
  use_mock : Bool
deriving DecidableEq

/-- `LegalEmailAssistant.__init__` (src lines 34-43).
`env_api_key` is `os.getenv("OPENAI_API_KEY")` and `langchain_available`
is the module-level `LANGCHAIN_AVAILABLE` flag, both read from the runtime.
`self.use_mock = not (self.api_key and LANGCHAIN_AVAILABLE)`. -/
def LegalEmailAssistant.init (api_key : Option String) (env_api_key : Option String)
    (langchain_available : Bool) (model_name : String) : LegalEmailAssistant :=
  let key := pyOr api_key env_api_key
  { api_key := key
  , model_name := model_name
  , use_mock := !(pyTruthy key && langchain_available) }

/-- The dict returned by `_mock_analysis_result` (src lines 110-128). -/
def mock_analysis_result : AnalysisDict :=
  { intent := some "legal_advice_request"
  , primary_topic := some "termination_for_cause"
  , parties := some { client := some "Acme Technologies Pvt. Ltd."
                    , counterparty := some "Brightwave Solutions LLP" }
  , agreement_reference := some { type := some "Master Services Agreement"
                                , date := some "10 March 2023" }
  , questions := some
      [ "Whether we are contractually entitled to terminate for cause on the basis of repeated delays in delivery"
      , "The minimum notice period required" ]
  , requested_due_date := some "18 November 2025"
  , urgency_level := some "high" }

/-- `_mock_draft_result` (src lines 130-143): interpolates
`analysis['agreement_reference']['type']` and
`analysis['agreement_reference']['date']` into the fixed template.
`none` models the `KeyError` Python raises when an accessed key is absent. -/
def mock_draft_result (analysis : AnalysisDict) : Option String :=
  match analysis.agreement_reference with
  | none => none
  | some ar =>
    match ar.type, ar.date with
    | some artype, some ardate => some (
        "Dear Ms. Sharma,\n\n" ++
        "Thank you for your email regarding the " ++ artype ++ " dated " ++
        ardate ++ ".\n\n" ++
        "Regarding your query on termination for cause: Under Clause 9.2 of the Agreement, " ++
        "repeated failure to meet delivery timelines explicitly constitutes a 'material breach.' " ++
        "Therefore, you are contractually entitled to terminate the agreement on these grounds.\n\n" ++
        "As per Clause 9.1 read in conjunction with Clause 10.2, the minimum notice period required " ++
        "to effect this termination is thirty (30) days' prior written notice.\n\n" ++
        "Please let us know if you would like our assistance in drafting the formal notice.\n\n" ++
        "Regards,\n" ++
        "Legal Team")
    | _, _ => none

/-- `charsStartWith sub l` : `sub` is an initial segment of `l`. -/
def charsStartWith : List Char → List Char → Bool
  | [], _ => true
  | _ :: _, [] => false
  | a :: as, b :: bs => a == b && charsStartWith as bs

/-- `charsContain sub l` : `sub` occurs contiguously somewhere in `l`. -/
def charsContain (sub : List Char) : List Char → Bool
  | [] => charsStartWith sub []
  | b :: bs => charsStartWith sub (b :: bs) || charsContain sub bs

/-- `strContains s sub` : `sub` is a contiguous substring of `s`. -/
def strContains (s sub : String) : Bool :=
  charsContain sub.data s.data

/-- One chat message of the outbound request. -/
structure ChatMessage where
  role : String
  content : String
deriving DecidableEq

/-- The request live-mode `analyze_email` sends to the external capability:
the prompt messages plus the structured-output schema it binds with
`with_structured_output` (src lines 52-58). -/
structure AnalyzeRequest where
  messages : List ChatMessage
  output_schema : String
deriving DecidableEq

/-- The fixed system instruction (src line 54). -/
def system_prompt : String :=
  "You are a legal AI assistant. Extract structured data from the provided email."

/-- Request construction in live-mode `analyze_email` (src lines 52-61):
`ChatPromptTemplate.from_messages([("system", system_prompt), ("human", "{input}")])`
invoked with `input = email_text`; the single formatting pass places
`email_text` verbatim as the human message. -/
def build_analyze_request (email_text : String) : AnalyzeRequest :=
  { messages := [ { role := "system", content := system_prompt }
                , { role := "human", content := email_text } ]
  , output_schema := "EmailAnalysisSchema" }

/-- Modelled from the spec: the error taxonomy name `ExtractionFailure` for a
live-mode extraction failure.  The repository defines no exception class of
its own; the underlying exception raised by the external capability (transport
error or schema non-conformance) is carried as its message, and `analyze_email`
propagates it unchanged (src lines 52-63 contain no try/except). -/
inductive ExtractionFailure where
  | failure : String → ExtractionFailure
deriving DecidableEq

/-- `analyze_email` (src lines 45-63).  `capability` is the external
model-invocation capability bound to `EmailAnalysisSchema` structured output:
it returns a conforming record or fails.  The mock branch returns the fixed
dict; the live branch sends the constructed request and returns
`result.dict()`, propagating any failure with no retry and no fallback. -/
def analyze_email (a : LegalEmailAssistant)
    (capability : AnalyzeRequest → Except ExtractionFailure EmailAnalysisSchema)
    (email_text : String) : Except ExtractionFailure AnalysisDict :=
  if a.use_mock then .ok mock_analysis_result
  else (capability (build_analyze_request email_text)).map toDict

/-- `draft_reply` (src lines 65-107).  `draft_capability` abstracts the
live-mode chain invocation on the raw inputs (its prompt construction is not
examined by any claim); the mock branch calls `_mock_draft_result` on the
analysis dict, ignoring `email_text` and `contract_text`.  `none` models a
raised exception. -/
def draft_reply (a : LegalEmailAssistant)
    (draft_capability : String → AnalysisDict → String → Option String)
    (email_text : String) (analysis : AnalysisDict) (contract_text : String) :
    Option String :=
  if a.use_mock then mock_draft_result analysis
  else draft_capability email_text analysis contract_text

/-- The fixed reference record as the spec (§8) enumerates it, field by
field, for comparison with the source's `mock_analysis_result`. -/
def spec_reference_record : AnalysisDict :=
  { intent := some "legal_advice_request"
  , primary_topic := some "termination_for_cause"
  , parties := some { client := some "Acme Technologies Pvt. Ltd."
                    , counterparty := some "Brightwave Solutions LLP" }
  , agreement_reference := some { type := some "Master Services Agreement"
                                , date := some "10 March 2023" }
  , questions := some
      [ "Whether we are contractually entitled to terminate for cause on the basis of repeated delays in delivery"
      , "The minimum notice period required" ]
  , requested_due_date := some "18 November 2025"
  , urgency_level := some "high" }

/-- Dict access `analysis['agreement_reference']['type']`, `none` = `KeyError`. -/
def agreement_type_of (c : AnalysisDict) : Option String :=
  match c.agreement_reference with
  | none => none
  | some ar => ar.type

/-- Dict access `analysis['agreement_reference']['date']`, `none` = `KeyError`. -/
def agreement_date_of (c : AnalysisDict) : Option String :=
  match c.agreement_reference with
  | none => none
  | some ar => ar.date

/-- Dict access `candidate['parties']['counterparty']`, `none` = absent. -/
def counterparty_of (c : AnalysisDict) : Option String :=
  match c.parties with
  | none => none
  | some p => p.counterparty

/-- The mock dict with `parties.counterparty` removed: a concrete candidate
missing one required field. -/
def missing_counterparty_candidate : AnalysisDict :=
  { mock_analysis_result with
      parties := some { client := some "Acme Technologies Pvt. Ltd.", counterparty := none } }

/-- A concrete external capability that always fails (the external model
could not produce a schema-conforming result). -/
def failing_capability : AnalyzeRequest → Except ExtractionFailure EmailAnalysisSchema :=
  fun _ => .error (.failure "schema non-conformance")

/-- A dict carrying only the `agreement_reference` object and lacking every
other `StructuredRecord` field. -/
def agreement_only_dict : AnalysisDict :=
  { intent := none, primary_topic := none, parties := none
  , agreement_reference := some { type := some "Master Services Agreement"
                                , date := some "10 March 2023" }
  , questions := none, requested_due_date := none, urgency_level := none }

/-- Claim C1: the Service operates in live mode (`use_mock = false`) if and
only if a non-empty credential is available — as the explicit construction
argument or from the environment — and the external model-invocation
capability (`LANGCHAIN_AVAILABLE`) is present; otherwise it operates in mock
mode.  The decision is computed once by the constructor into the immutable
`use_mock` field, which no other operation of the embedding modifies. -/
theorem mode_resolution_iff (api_key env_api_key : Option String)
    (langchain_available : Bool) (model_name : String) :
    (LegalEmailAssistant.init api_key env_api_key langchain_available model_name).use_mock = false ↔
      ((pyTruthy api_key = true ∨ pyTruthy env_api_key = true) ∧ langchain_available = true) := by
  cases hk : pyTruthy api_key <;> cases he : pyTruthy env_api_key <;>
    cases langchain_available <;>
      simp [LegalEmailAssistant.init, pyOr, hk, he]

/-- Claim C2: for every input `email_text`, mock-mode `analyze_email` returns
the fixed reference record of the spec — intent `legal_advice_request`, topic
`termination_for_cause`, the Acme/Brightwave parties, the Master Services
Agreement dated 10 March 2023, exactly the two questions in order, due date
18 November 2025, urgency `high`. -/
theorem mock_analyze_fixed_record (a : LegalEmailAssistant)
    (capability : AnalyzeRequest → Except ExtractionFailure EmailAnalysisSchema)
    (email_text : String) (h : a.use_mock = true) :
    analyze_email a capability email_text = .ok spec_reference_record := by
  simp [analyze_email, h]
  rfl

/-- Witness for claim C2 at a concrete mock-mode assistant and input. -/
theorem mock_analyze_fixed_record_witness :
    (LegalEmailAssistant.init none none false "gpt-4-turbo").use_mock = true ∧
    analyze_email (LegalEmailAssistant.init none none false "gpt-4-turbo")
      (fun _ => .error (.failure "unused")) "any email text" = .ok spec_reference_record :=
  ⟨rfl, mock_analyze_fixed_record _ _ _ rfl⟩

set_option maxRecDepth 4000 in
/-- Claim C3: for the fixed reference record, mock-mode `draft_reply` returns
a string containing the substrings "Clause 9.2", "Clause 9.1", "Clause 10.2"
and "thirty (30) days", and containing the record's agreement type
("Master Services Agreement") and date ("10 March 2023") verbatim; repeated
calls with the same record give identical output. -/
theorem mock_draft_fixed_record_contents (a : LegalEmailAssistant)
    (draft_capability : String → AnalysisDict → String → Option String)
    (email_text contract_text : String) (h : a.use_mock = true) :
    ∃ s, draft_reply a draft_capability email_text mock_analysis_result contract_text = some s ∧
      strContains s "Clause 9.2" = true ∧
      strContains s "Clause 9.1" = true ∧
      strContains s "Clause 10.2" = true ∧
      strContains s "thirty (30) days" = true ∧
      strContains s "Master Services Agreement" = true ∧
      strContains s "10 March 2023" = true ∧
      draft_reply a draft_capability email_text mock_analysis_result contract_text =
        draft_reply a draft_capability email_text mock_analysis_result contract_text := by
  have hd : draft_reply a draft_capability email_text mock_analysis_result contract_text =
      mock_draft_result mock_analysis_result := by
    simp [draft_reply, h]
  rw [hd]
  exact ⟨_, rfl, by decide, by decide, by decide, by decide, by decide, by decide, rfl⟩

set_option maxRecDepth 4000 in
/-- Witness for claim C3 at a concrete mock-mode assistant and inputs. -/
theorem mock_draft_fixed_record_contents_witness :
    (LegalEmailAssistant.init none none false "gpt-4-turbo").use_mock = true ∧
    (∃ s, draft_reply (LegalEmailAssistant.init none none false "gpt-4-turbo")
        (fun _ _ _ => none) "sample email" mock_analysis_result "sample contract" = some s ∧
      strContains s "Clause 9.2" = true ∧
      strContains s "Clause 9.1" = true ∧
      strContains s "Clause 10.2" = true ∧
      strContains s "thirty (30) days" = true ∧
      strContains s "Master Services Agreement" = true ∧
      strContains s "10 March 2023" = true ∧
      draft_reply (LegalEmailAssistant.init none none false "gpt-4-turbo")
        (fun _ _ _ => none) "sample email" mock_analysis_result "sample contract" =
      draft_reply (LegalEmailAssistant.init none none false "gpt-4-turbo")
        (fun _ _ _ => none) "sample email" mock_analysis_result "sample contract") :=
  ⟨rfl, mock_draft_fixed_record_contents _ _ _ _ rfl⟩

/-- Claim C4: mock-mode `draft_reply` does not depend on `email_text` or
`contract_text` — for the same record, any two pairs of those inputs give
equal output. -/
theorem mock_draft_ignores_email_and_contract (a : LegalEmailAssistant)
    (draft_capability : String → AnalysisDict → String → Option String)
    (email_text₁ contract_text₁ email_text₂ contract_text₂ : String)
    (analysis : AnalysisDict) (h : a.use_mock = true) :
    draft_reply a draft_capability email_text₁ analysis contract_text₁ =
      draft_reply a draft_capability email_text₂ analysis contract_text₂ := by
  simp [draft_reply, h]

/-- Witness for claim C4 at a concrete mock-mode assistant with two
different email/contract input pairs. -/
theorem mock_draft_ignores_email_and_contract_witness :
    (LegalEmailAssistant.init none none false "gpt-4-turbo").use_mock = true ∧
    draft_reply (LegalEmailAssistant.init none none false "gpt-4-turbo")
      (fun _ _ _ => none) "email one" mock_analysis_result "contract one" =
    draft_reply (LegalEmailAssistant.init none none false "gpt-4-turbo")
      (fun _ _ _ => none) "email two" mock_analysis_result "contract two" :=
  ⟨rfl, mock_draft_ignores_email_and_contract _ _ _ _ _ _ _ rfl⟩

/-- Counterexample to claim C5: the schema declares `urgency_level` as a
plain required string — the low/medium/high wording lives only in the Field
description, which pydantic does not enforce — so validating the candidate
whose `urgency_level` is "critical" succeeds instead of failing. -/
theorem urgency_critical_passes_validation :
    validate { mock_analysis_result with urgency_level := some "critical" } =
      .ok { intent := "legal_advice_request"
          , primary_topic := "termination_for_cause"
          , parties := { client := "Acme Technologies Pvt. Ltd."
                       , counterparty := "Brightwave Solutions LLP" }
          , agreement_reference := { type := "Master Services Agreement"
                                   , date := "10 March 2023" }
          , questions :=
              [ "Whether we are contractually entitled to terminate for cause on the basis of repeated delays in delivery"
              , "The minimum notice period required" ]
          , requested_due_date := "18 November 2025"
          , urgency_level := "critical" } := rfl

/-- Claim C5 as amended: schema validation requires `urgency_level` to be a
present string but places no enumeration constraint on its value — any
string, including "critical", is accepted and carried into the record. -/
theorem validate_accepts_any_urgency_string (u : String) :
    validate { mock_analysis_result with urgency_level := some u } =
      .ok { intent := "legal_advice_request"
          , primary_topic := "termination_for_cause"
          , parties := { client := "Acme Technologies Pvt. Ltd."
                       , counterparty := "Brightwave Solutions LLP" }
          , agreement_reference := { type := "Master Services Agreement"
                                   , date := "10 March 2023" }
          , questions :=
              [ "Whether we are contractually entitled to terminate for cause on the basis of repeated delays in delivery"
              , "The minimum notice period required" ]
          , requested_due_date := "18 November 2025"
          , urgency_level := u } := rfl

/-- Validation only succeeds on candidates with every required field
present (helper for the rejection theorem). -/
theorem validate_ok_fieldsPresent (c : AnalysisDict) (r : EmailAnalysisSchema)
    (h : validate c = .ok r) : fieldsPresent c = true := by
  unfold validate at h
  repeat' split at h
  all_goals (try exact Except.noConfusion h)
  all_goals simp_all [fieldsPresent]

/-- Claim C6: schema validation rejects every candidate missing a required
field — it returns a `ValidationError` and produces no (partial) record.
The witness instantiates this at a candidate whose `parties` object lacks
`counterparty`. -/
theorem validate_rejects_incomplete_candidate (c : AnalysisDict)
    (h : fieldsPresent c = false) :
    (∃ e, validate c = .error e) ∧ ∀ r, validate c ≠ .ok r := by
  cases hv : validate c with
  | error e =>
    exact ⟨⟨e, rfl⟩, fun r hr => Except.noConfusion hr⟩
  | ok r =>
    exact absurd (validate_ok_fieldsPresent c r hv) (by simp [h])

/-- Witness for claim C6 at the concrete candidate whose `parties` object
lacks the `counterparty` field. -/
theorem validate_rejects_incomplete_candidate_witness :
    fieldsPresent missing_counterparty_candidate = false ∧
    ((∃ e, validate missing_counterparty_candidate = .error e) ∧
      ∀ r, validate missing_counterparty_candidate ≠ .ok r) :=
  ⟨rfl, validate_rejects_incomplete_candidate _ rfl⟩

/-- Claim C7: the fixed record returned by mock-mode analyze satisfies the
schema's validation contract — `validate` succeeds on it, both party names
are non-empty, and its urgency level lies in the enumerated set. -/
theorem mock_record_satisfies_schema :
    ∃ r, validate mock_analysis_result = .ok r ∧
      r.parties.client ≠ "" ∧ r.parties.counterparty ≠ "" ∧
      (r.urgency_level = "low" ∨ r.urgency_level = "medium" ∨ r.urgency_level = "high") ∧
      r = { intent := "legal_advice_request"
          , primary_topic := "termination_for_cause"
          , parties := { client := "Acme Technologies Pvt. Ltd."
                       , counterparty := "Brightwave Solutions LLP" }
          , agreement_reference := { type := "Master Services Agreement"
                                   , date := "10 March 2023" }
          , questions :=
              [ "Whether we are contractually entitled to terminate for cause on the basis of repeated delays in delivery"
              , "The minimum notice period required" ]
          , requested_due_date := "18 November 2025"
          , urgency_level := "high" } := by
  exact ⟨_, rfl, by decide, by decide, Or.inr (Or.inr rfl), rfl⟩

/-- Claim C8: in live mode, `analyze_email` builds the outbound request from
exactly the fixed system instruction plus the raw `email_text` as the only
variable input, requests `EmailAnalysisSchema`-conforming output, and passes
that request — and nothing else — to the external capability. -/
theorem live_analyze_request_construction (a : LegalEmailAssistant)
    (capability : AnalyzeRequest → Except ExtractionFailure EmailAnalysisSchema)
    (email_text : String) (h : a.use_mock = false) :
    build_analyze_request email_text =
      { messages :=
          [ { role := "system"
            , content := "You are a legal AI assistant. Extract structured data from the provided email." }
          , { role := "human", content := email_text } ]
      , output_schema := "EmailAnalysisSchema" } ∧
    analyze_email a capability email_text =
      (capability (build_analyze_request email_text)).map toDict := by
  exact ⟨rfl, by simp [analyze_email, h]⟩

/-- Witness for claim C8 at a concrete live-mode assistant and input. -/
theorem live_analyze_request_construction_witness :
    (LegalEmailAssistant.init (some "sk-test") none true "gpt-4-turbo").use_mock = false ∧
    (build_analyze_request "Sample email" =
      { messages :=
          [ { role := "system"
            , content := "You are a legal AI assistant. Extract structured data from the provided email." }
          , { role := "human", content := "Sample email" } ]
      , output_schema := "EmailAnalysisSchema" } ∧
    analyze_email (LegalEmailAssistant.init (some "sk-test") none true "gpt-4-turbo")
      failing_capability "Sample email" =
      (failing_capability (build_analyze_request "Sample email")).map toDict) :=
  ⟨rfl, live_analyze_request_construction _ _ _ rfl⟩

/-- Claim C9: in live mode, when the external capability cannot produce a
schema-conforming result, `analyze_email` surfaces that extraction failure
to the caller unchanged — no retry, no fallback to mock output — and returns
no (partial) record. -/
theorem live_analyze_propagates_failure (a : LegalEmailAssistant)
    (capability : AnalyzeRequest → Except ExtractionFailure EmailAnalysisSchema)
    (email_text : String) (e : ExtractionFailure)
    (h : a.use_mock = false)
    (hc : capability (build_analyze_request email_text) = .error e) :
    analyze_email a capability email_text = .error e ∧
      ∀ d, analyze_email a capability email_text ≠ .ok d := by
  have hm : analyze_email a capability email_text = .error e := by
    simp [analyze_email, h, hc, Except.map]
  exact ⟨hm, fun d hd => by rw [hm] at hd; exact Except.noConfusion hd⟩

/-- Witness for claim C9 at a concrete live-mode assistant and a capability
that always fails. -/
theorem live_analyze_propagates_failure_witness :
    (LegalEmailAssistant.init (some "sk-test") none true "gpt-4-turbo").use_mock = false ∧
    (analyze_email (LegalEmailAssistant.init (some "sk-test") none true "gpt-4-turbo")
        failing_capability "Sample email" = .error (.failure "schema non-conformance") ∧
      ∀ d, analyze_email (LegalEmailAssistant.init (some "sk-test") none true "gpt-4-turbo")
        failing_capability "Sample email" ≠ .ok d) :=
  ⟨rfl, live_analyze_propagates_failure _ _ _ _ rfl rfl⟩

/-- Two records whose `agreement_reference` type and date accesses agree give
the same mock draft (helper for the dependence theorem). -/
theorem mock_draft_result_congr (r₁ r₂ : AnalysisDict) (t d : String)
    (h1t : agreement_type_of r₁ = some t) (h2t : agreement_type_of r₂ = some t)
    (h1d : agreement_date_of r₁ = some d) (h2d : agreement_date_of r₂ = some d) :
    mock_draft_result r₁ = mock_draft_result r₂ := by
  cases har1 : r₁.agreement_reference with
  | none => simp [agreement_type_of, har1] at h1t
  | some ar1 =>
    cases har2 : r₂.agreement_reference with
    | none => simp [agreement_type_of, har2] at h2t
    | some ar2 =>
      simp only [agreement_type_of, har1, har2] at h1t h2t
      simp only [agreement_date_of, har1, har2] at h1d h2d
      simp [mock_draft_result, har1, har2, h1t, h2t, h1d, h2d]

/-- Claim C10: mock-mode `draft_reply` reads only
`agreement_reference.type` and `agreement_reference.date` from the record —
two records agreeing on those two values give identical output even when
they differ in, or entirely lack, every other field, and no validation of
the record takes place on the mock path. -/
theorem mock_draft_depends_only_on_agreement_reference
    (a : LegalEmailAssistant)
    (draft_capability : String → AnalysisDict → String → Option String)
    (email_text₁ contract_text₁ email_text₂ contract_text₂ : String)
    (r₁ r₂ : AnalysisDict) (t d : String)
    (h : a.use_mock = true)
    (h1t : agreement_type_of r₁ = some t) (h2t : agreement_type_of r₂ = some t)
    (h1d : agreement_date_of r₁ = some d) (h2d : agreement_date_of r₂ = some d) :
    draft_reply a draft_capability email_text₁ r₁ contract_text₁ =
      draft_reply a draft_capability email_text₂ r₂ contract_text₂ := by
  have hd1 : draft_reply a draft_capability email_text₁ r₁ contract_text₁ =
      mock_draft_result r₁ := by simp [draft_reply, h]
  have hd2 : draft_reply a draft_capability email_text₂ r₂ contract_text₂ =
      mock_draft_result r₂ := by simp [draft_reply, h]
  rw [hd1, hd2]
  exact mock_draft_result_congr r₁ r₂ t d h1t h2t h1d h2d

/-- Witness for claim C10: the full mock record and a record lacking every
field except `agreement_reference` draft identically. -/
theorem mock_draft_depends_only_on_agreement_reference_witness :
    (LegalEmailAssistant.init none none false "gpt-4-turbo").use_mock = true ∧
    agreement_type_of mock_analysis_result = some "Master Services Agreement" ∧
    agreement_type_of agreement_only_dict = some "Master Services Agreement" ∧
    agreement_date_of mock_analysis_result = some "10 March 2023" ∧
    agreement_date_of agreement_only_dict = some "10 March 2023" ∧
    draft_reply (LegalEmailAssistant.init none none false "gpt-4-turbo")
      (fun _ _ _ => none) "email one" mock_analysis_result "contract one" =
    draft_reply (LegalEmailAssistant.init none none false "gpt-4-turbo")
      (fun _ _ _ => none) "email two" agreement_only_dict "contract two" :=
  ⟨rfl, rfl, rfl, rfl, rfl,
    mock_draft_depends_only_on_agreement_reference _ _ _ _ _ _ _ _
      "Master Services Agreement" "10 March 2023" rfl rfl rfl rfl rfl⟩

end EmailAssistant
